import Mathlib

/-!
Verification of the adaptive content-fetch engine and feed-processing
pipeline (topic_engine).  The Python modules
sources/fetching/types.py, sources/fetching/fetcher.py,
sources/fetching/strategies/simple.py and sources/services.py are
shallowly embedded below: pure data classes become structures, the
dict-based history map becomes a function with pointwise update, regex
search is modelled by an abstract Boolean matcher, network responses
are supplied as explicit oracles, and timestamps are integers (minutes).
-/

/-- ContentQuality enum from sources/fetching/types.py. -/
inductive ContentQuality
  | FULL
  | PARTIAL
  | BLOCKED
  | EMPTY
  deriving DecidableEq, Repr

/-- FetchStrategy enum from sources/fetching/strategy.py. -/
inductive FetchStrategy
  | SIMPLE
  | BROWSER
  | ARCHIVE
  deriving DecidableEq, Repr

/-- The fixed enumeration order of strategies, list(FetchStrategy) in Python. -/
def FetchStrategy.members : List FetchStrategy :=
  [FetchStrategy.SIMPLE, FetchStrategy.BROWSER, FetchStrategy.ARCHIVE]

/-- Position of a strategy in the fixed enumeration order. -/
def FetchStrategy.enumIndex : FetchStrategy → Nat
  | FetchStrategy.SIMPLE => 0
  | FetchStrategy.BROWSER => 1
  | FetchStrategy.ARCHIVE => 2

/-- A metadata value: the Python dict holds ints and strings. -/
inductive MetaValue
  | nat (n : Nat)
  | str (s : Option String)
  deriving DecidableEq, Repr

/-- FetchResult from sources/fetching/types.py. -/
structure FetchResult where
  content : Option String
  quality : ContentQuality
  strategy : Option FetchStrategy := none
  error : Option String := none
  metadata : List (String × MetaValue) := []
  deriving DecidableEq, Repr

/-- FetchResult.success: content is not None and quality not in (EMPTY, BLOCKED). -/
def FetchResult.success (r : FetchResult) : Bool :=
  r.content.isSome &&
    !(r.quality = ContentQuality.EMPTY || r.quality = ContentQuality.BLOCKED)

/-- ContentValidation from sources/fetching/types.py.  A compiled regex is
modelled as an abstract Boolean matcher on strings (pattern.search truthiness). -/
structure ContentValidation where
  min_length : Nat := 100
  max_length : Nat := 2000000
  required_patterns : List (String → Bool)
  blocked_patterns : List (String → Bool)

/-- ContentValidation.validate from sources/fetching/types.py lines 53-88
(the body of the try block; no modelled operation throws). -/
def ContentValidation.validate (v : ContentValidation) (content : String) : ContentQuality :=
  if content.isEmpty then ContentQuality.EMPTY
  else
    let content_length := content.length
    if content_length < v.min_length then ContentQuality.EMPTY
    else if content_length > v.max_length then ContentQuality.PARTIAL
    else if v.blocked_patterns.any (fun p => p content) then ContentQuality.BLOCKED
    else if v.required_patterns.any (fun p => p content) then ContentQuality.FULL
    else if content_length > 1000 then ContentQuality.PARTIAL
    else ContentQuality.EMPTY

/-- The decision procedure exactly as claim C6 words it, step by step:
empty, short, long, blocked, required, substantial, else empty. -/
def validateSpecC6 (v : ContentValidation) (content : String) : ContentQuality :=
  if content.isEmpty then ContentQuality.EMPTY
  else if content.length < v.min_length then ContentQuality.EMPTY
  else if content.length > v.max_length then ContentQuality.PARTIAL
  else if v.blocked_patterns.any (fun p => p content) then ContentQuality.BLOCKED
  else if v.required_patterns.any (fun p => p content) then ContentQuality.FULL
  else if content.length > 1000 then ContentQuality.PARTIAL
  else ContentQuality.EMPTY

/-- C6: validate returns the quality given by the spec decision procedure in
its stated order, and in particular content matching a blocked pattern is
never classified FULL, and content within the length bounds matching a
blocked pattern is BLOCKED even when a required pattern also matches. -/
theorem C6_validate_order (v : ContentValidation) (content : String) :
    v.validate content = validateSpecC6 v content ∧
    (v.blocked_patterns.any (fun p => p content) = true →
      v.validate content ≠ ContentQuality.FULL) ∧
    (v.blocked_patterns.any (fun p => p content) = true →
      v.min_length ≤ content.length → content.length ≤ v.max_length →
      content.isEmpty = false →
      v.validate content = ContentQuality.BLOCKED) := by
  refine ⟨rfl, ?_, ?_⟩
  · intro hb
    unfold ContentValidation.validate
    split
    · simp
    · simp only [hb]
      split
      · simp
      · split
        · simp
        · simp
  · intro hb hmin hmax hne
    unfold ContentValidation.validate
    rw [hne]
    simp [hb, Nat.not_lt.mpr hmin, Nat.not_lt.mpr hmax]

/-- A concrete validation config used to instantiate the C6 theorem. -/
def vC6test : ContentValidation :=
  { min_length := 1, max_length := 2000000,
    required_patterns := [fun s => s.length > 0],
    blocked_patterns := [fun s => s.length > 2] }

/-- C6 witness: a concrete content matching both a blocked and a required
pattern, inside the length bounds, classifies BLOCKED. -/
theorem C6_validate_order_witness :
    vC6test.validate "paywall content" = validateSpecC6 vC6test "paywall content" ∧
    vC6test.validate "paywall content" = ContentQuality.BLOCKED := by
  refine ⟨(C6_validate_order vC6test "paywall content").1, ?_⟩
  exact (C6_validate_order vC6test "paywall content").2.2 (by decide) (by decide)
    (by decide) (by decide)

/-- FetchHistory from sources/fetching/fetcher.py: the two per-strategy
count dicts (every strategy starting at 0) become total functions. -/
structure FetchHistory where
  pattern : String
  successful_strategies : FetchStrategy → Nat
  failed_strategies : FetchStrategy → Nat
  last_success : Option String := none
  last_failure : Option String := none

/-- FetchHistory(pattern): the dataclass constructor with default counters. -/
def FetchHistory.init (pattern : String) : FetchHistory :=
  { pattern := pattern
    successful_strategies := fun _ => 0
    failed_strategies := fun _ => 0 }

/-- FetchHistory.record_attempt (fetcher.py lines 31-39); timestamp is the
caller clock reading. -/
def FetchHistory.record_attempt (h : FetchHistory) (timestamp : String)
    (result : FetchResult) (strategy : FetchStrategy) : FetchHistory :=
  if result.content.isSome && !(result.quality = ContentQuality.EMPTY) then
    { h with
      successful_strategies := fun t =>
        if t = strategy then h.successful_strategies t + 1 else h.successful_strategies t
      last_success := some timestamp }
  else
    { h with
      failed_strategies := fun t =>
        if t = strategy then h.failed_strategies t + 1 else h.failed_strategies t
      last_failure := some timestamp }

/-- StrategyManager from fetcher.py.  get_url_pattern (urlparse based URL
normalization) is carried as a field so every theorem quantifies over it;
the pattern-history dict is a total function to Option. -/
structure StrategyManager where
  get_url_pattern : String → String
  pattern_history : String → Option FetchHistory

/-- StrategyManager.get_optimal_strategy (fetcher.py lines 57-77): build the
score table in enumeration order over strategies with at least one attempt,
then take the Python max (first element wins ties since max only replaces
the running best on a strictly greater key). -/
def StrategyManager.get_optimal_strategy (m : StrategyManager) (url : String) :
    FetchStrategy :=
  let pattern := m.get_url_pattern url
  match m.pattern_history pattern with
  | some history =>
    let strategy_scores : List (FetchStrategy × ℚ) :=
      FetchStrategy.members.filterMap (fun strategy =>
        let successes := history.successful_strategies strategy
        let failures := history.failed_strategies strategy
        let total := successes + failures
        if 0 < total then some (strategy, (successes : ℚ) / (total : ℚ)) else none)
    match strategy_scores with
    | [] => FetchStrategy.SIMPLE
    | first :: rest =>
      (rest.foldl (fun best x => if best.2 < x.2 then x else best) first).1
  | none => FetchStrategy.SIMPLE

/-- StrategyManager.record_attempt (fetcher.py lines 79-84). -/
def StrategyManager.record_attempt (m : StrategyManager) (timestamp : String)
    (url : String) (result : FetchResult) (strategy : FetchStrategy) :
    StrategyManager :=
  let pattern := m.get_url_pattern url
  let history := match m.pattern_history pattern with
    | none => FetchHistory.init pattern
    | some h => h
  { m with
    pattern_history := fun q =>
      if q = pattern then some (history.record_attempt timestamp result strategy)
      else m.pattern_history q }

/-- Strategies of the pattern history with at least one recorded attempt. -/
def FetchHistory.attempted (h : FetchHistory) : List FetchStrategy :=
  FetchStrategy.members.filter
    (fun s => 0 < h.successful_strategies s + h.failed_strategies s)

/-- Success rate of a strategy in a history bucket. -/
def FetchHistory.score (h : FetchHistory) (s : FetchStrategy) : ℚ :=
  (h.successful_strategies s : ℚ) /
    ((h.successful_strategies s + h.failed_strategies s : Nat) : ℚ)

/-- Total number of recorded attempts in a history bucket. -/
def FetchHistory.totalCount (h : FetchHistory) : Nat :=
  (FetchStrategy.members.map
    (fun t => h.successful_strategies t + h.failed_strategies t)).sum

/-- History bucket for a pattern, with the fresh-bucket default used by
record_attempt when the pattern has not been seen yet. -/
def StrategyManager.historyAt (m : StrategyManager) (p : String) : FetchHistory :=
  (m.pattern_history p).getD (FetchHistory.init p)

/-- A manager with no recorded history and identity URL normalization. -/
def m0C2 : StrategyManager :=
  { get_url_pattern := id, pattern_history := fun _ => none }

/-- A result with content present but BLOCKED quality: success is false per
FetchResult, yet history counts it as a success. -/
def r0C2 : FetchResult :=
  { content := some "x", quality := ContentQuality.BLOCKED }

/-- C2 counterexample: a BLOCKED result with content present is not a success
per FetchResult.success, yet StrategyManager.record_attempt increments the
success counter for the strategy, not the failure counter. -/
theorem C2_record_attempt_counterexample :
    r0C2.success = false ∧
    ((m0C2.record_attempt "t0" "u" r0C2 FetchStrategy.SIMPLE).historyAt
        "u").successful_strategies FetchStrategy.SIMPLE = 1 ∧
    ((m0C2.record_attempt "t0" "u" r0C2 FetchStrategy.SIMPLE).historyAt
        "u").failed_strategies FetchStrategy.SIMPLE = 0 := by
  refine ⟨rfl, ?_, ?_⟩ <;>
    simp [m0C2, r0C2, StrategyManager.record_attempt, StrategyManager.historyAt,
      FetchHistory.record_attempt, FetchHistory.init, FetchResult.success]

/-- C2 amended: record_attempt increments the success counter for the URL
pattern and given strategy exactly when content is present and quality is not
EMPTY (so a BLOCKED result with content counts as a history success, unlike
FetchResult.success), otherwise the failure counter; a history entry exists
for the pattern after the call; counters of other strategies are untouched
and the total attempt count grows by exactly 1. -/
theorem C2_record_attempt_amended (m : StrategyManager) (ts url : String)
    (r : FetchResult) (s : FetchStrategy) :
    ((m.record_attempt ts url r s).pattern_history (m.get_url_pattern url)).isSome
        = true ∧
    ((m.record_attempt ts url r s).historyAt (m.get_url_pattern url)).successful_strategies s
        = (m.historyAt (m.get_url_pattern url)).successful_strategies s
          + (if r.content.isSome && !(r.quality = ContentQuality.EMPTY) then 1 else 0) ∧
    ((m.record_attempt ts url r s).historyAt (m.get_url_pattern url)).failed_strategies s
        = (m.historyAt (m.get_url_pattern url)).failed_strategies s
          + (if r.content.isSome && !(r.quality = ContentQuality.EMPTY) then 0 else 1) ∧
    (∀ t, t ≠ s →
      ((m.record_attempt ts url r s).historyAt (m.get_url_pattern url)).successful_strategies t
          = (m.historyAt (m.get_url_pattern url)).successful_strategies t ∧
      ((m.record_attempt ts url r s).historyAt (m.get_url_pattern url)).failed_strategies t
          = (m.historyAt (m.get_url_pattern url)).failed_strategies t) ∧
    ((m.record_attempt ts url r s).historyAt (m.get_url_pattern url)).totalCount
        = (m.historyAt (m.get_url_pattern url)).totalCount + 1 := by
  have hbase :
      (m.record_attempt ts url r s).historyAt (m.get_url_pattern url)
        = (m.historyAt (m.get_url_pattern url)).record_attempt ts r s := by
    unfold StrategyManager.record_attempt StrategyManager.historyAt
    cases hh : m.pattern_history (m.get_url_pattern url) <;> simp [hh]
  have hsome :
      ((m.record_attempt ts url r s).pattern_history (m.get_url_pattern url)).isSome
        = true := by
    unfold StrategyManager.record_attempt
    simp
  rw [hbase]
  refine ⟨hsome, ?_, ?_, ?_, ?_⟩ <;>
    unfold FetchHistory.record_attempt <;>
    by_cases hc : (r.content.isSome && !(r.quality = ContentQuality.EMPTY)) = true
  · simp [hc]
  · simp [hc]
  · simp [hc]
  · simp [hc]
  · intro t ht
    simp [hc, ht]
  · intro t ht
    simp [hc, ht]
  · unfold FetchHistory.totalCount
    cases s <;> simp [hc, FetchStrategy.members] <;> omega
  · unfold FetchHistory.totalCount
    cases s <;> simp [hc, FetchStrategy.members] <;> omega

/-- C2 witness: recording a failed attempt (no content) on a fresh manager
creates the history bucket and increments exactly the failure counter of the
chosen strategy. -/
theorem C2_record_attempt_amended_witness :
    ((m0C2.record_attempt "t1" "u" (FetchResult.mk none ContentQuality.EMPTY none none [])
        FetchStrategy.BROWSER).pattern_history "u").isSome = true ∧
    ((m0C2.record_attempt "t1" "u" (FetchResult.mk none ContentQuality.EMPTY none none [])
        FetchStrategy.BROWSER).historyAt "u").failed_strategies FetchStrategy.BROWSER
      = (m0C2.historyAt "u").failed_strategies FetchStrategy.BROWSER + 1 ∧
    ((m0C2.record_attempt "t1" "u" (FetchResult.mk none ContentQuality.EMPTY none none [])
        FetchStrategy.BROWSER).historyAt "u").successful_strategies FetchStrategy.SIMPLE
      = (m0C2.historyAt "u").successful_strategies FetchStrategy.SIMPLE := by
  have h := C2_record_attempt_amended m0C2 "t1" "u"
    (FetchResult.mk none ContentQuality.EMPTY none none []) FetchStrategy.BROWSER
  refine ⟨?_, ?_, ?_⟩
  · exact h.1
  · have := h.2.2.1
    simpa [m0C2] using this
  · exact (h.2.2.2.1 FetchStrategy.SIMPLE (by decide)).1

/-- The history-present branch of get_optimal_strategy as a pure function of
the bucket, mirroring fetcher.py lines 62-77. -/
def optimalOf (history : FetchHistory) : FetchStrategy :=
  let strategy_scores : List (FetchStrategy × ℚ) :=
    FetchStrategy.members.filterMap (fun strategy =>
      let successes := history.successful_strategies strategy
      let failures := history.failed_strategies strategy
      let total := successes + failures
      if 0 < total then some (strategy, (successes : ℚ) / (total : ℚ)) else none)
  match strategy_scores with
  | [] => FetchStrategy.SIMPLE
  | first :: rest =>
    (rest.foldl (fun best x => if best.2 < x.2 then x else best) first).1

lemma get_optimal_eq_optimalOf (m : StrategyManager) (url : String)
    (h : FetchHistory)
    (hs : m.pattern_history (m.get_url_pattern url) = some h) :
    m.get_optimal_strategy url = optimalOf h := by
  unfold StrategyManager.get_optimal_strategy optimalOf
  simp only [hs]

/-- Python max over a two-element score list: the running best is replaced
only on a strictly greater key, so the first element wins ties. -/
lemma pyFold2 (a b : FetchStrategy) (x y : ℚ) :
    (¬ x < y ∧
      List.foldl (fun best p => if best.2 < p.2 then p else best) (a, x) [(b, y)]
        = (a, x)) ∨
    (x < y ∧
      List.foldl (fun best p => if best.2 < p.2 then p else best) (a, x) [(b, y)]
        = (b, y)) := by
  by_cases hxy : x < y
  · right; exact ⟨hxy, by simp [hxy]⟩
  · left; exact ⟨hxy, by simp [hxy]⟩

/-- Python max over a three-element score list. -/
lemma pyFold3 (a b c : FetchStrategy) (x y z : ℚ) :
    (¬ x < y ∧ ¬ x < z ∧
      List.foldl (fun best p => if best.2 < p.2 then p else best) (a, x) [(b, y), (c, z)]
        = (a, x)) ∨
    (x < y ∧ ¬ y < z ∧
      List.foldl (fun best p => if best.2 < p.2 then p else best) (a, x) [(b, y), (c, z)]
        = (b, y)) ∨
    (x < z ∧ y < z ∧
      List.foldl (fun best p => if best.2 < p.2 then p else best) (a, x) [(b, y), (c, z)]
        = (c, z)) := by
  by_cases hxy : x < y
  · by_cases hyz : y < z
    · right; right; exact ⟨lt_trans hxy hyz, hyz, by simp [hxy, hyz]⟩
    · right; left; exact ⟨hxy, hyz, by simp [hxy, hyz]⟩
  · by_cases hxz : x < z
    · right; right
      exact ⟨hxz, lt_of_le_of_lt (not_lt.mp hxy) hxz, by simp [hxy, hxz]⟩
    · left; exact ⟨hxy, hxz, by simp [hxy, hxz]⟩

lemma optimalOf_spec (h : FetchHistory) (hne : h.attempted ≠ []) :
    optimalOf h ∈ h.attempted ∧
    (∀ s ∈ h.attempted, h.score s ≤ h.score (optimalOf h)) ∧
    (∀ s ∈ h.attempted, h.score s = h.score (optimalOf h) →
      (optimalOf h).enumIndex ≤ s.enumIndex) := by
  by_cases h1 : 0 < h.successful_strategies FetchStrategy.SIMPLE
      + h.failed_strategies FetchStrategy.SIMPLE <;>
    by_cases h2 : 0 < h.successful_strategies FetchStrategy.BROWSER
      + h.failed_strategies FetchStrategy.BROWSER <;>
    by_cases h3 : 0 < h.successful_strategies FetchStrategy.ARCHIVE
      + h.failed_strategies FetchStrategy.ARCHIVE <;>
    simp only [optimalOf, FetchHistory.attempted, FetchHistory.score,
      FetchStrategy.members, List.filterMap_cons, List.filterMap_nil,
      List.filter_cons, List.filter_nil, h1, h2, h3,
      decide_eq_true_eq, if_true, if_false, ite_true, ite_false] at hne ⊢
  · -- all three strategies attempted
    set x := (h.successful_strategies FetchStrategy.SIMPLE : ℚ) /
        ((h.successful_strategies FetchStrategy.SIMPLE
          + h.failed_strategies FetchStrategy.SIMPLE : ℕ) : ℚ) with hxdef
    set y := (h.successful_strategies FetchStrategy.BROWSER : ℚ) /
        ((h.successful_strategies FetchStrategy.BROWSER
          + h.failed_strategies FetchStrategy.BROWSER : ℕ) : ℚ) with hydef
    set z := (h.successful_strategies FetchStrategy.ARCHIVE : ℚ) /
        ((h.successful_strategies FetchStrategy.ARCHIVE
          + h.failed_strategies FetchStrategy.ARCHIVE : ℕ) : ℚ) with hzdef
    rcases pyFold3 FetchStrategy.SIMPLE FetchStrategy.BROWSER FetchStrategy.ARCHIVE
        x y z with ⟨hy, hz, hr⟩ | ⟨hx, hz, hr⟩ | ⟨hx, hy, hr⟩ <;> rw [hr]
    · refine ⟨by simp, ?_, ?_⟩
      · intro s hs
        fin_cases hs <;> simp only [← hxdef, ← hydef, ← hzdef] <;>
          linarith [not_lt.mp hy, not_lt.mp hz]
      · intro s hs heq
        fin_cases hs <;> simp only [FetchStrategy.enumIndex] <;> omega
    · refine ⟨by simp, ?_, ?_⟩
      · intro s hs
        fin_cases hs <;> simp only [← hxdef, ← hydef, ← hzdef] <;>
          linarith [le_of_lt hx, not_lt.mp hz]
      · intro s hs heq
        fin_cases hs <;> simp only [← hxdef, ← hydef, ← hzdef] at heq ⊢ <;>
          simp only [FetchStrategy.enumIndex]
        · exact absurd heq (ne_of_lt hx)
        · omega
        · omega
    · refine ⟨by simp, ?_, ?_⟩
      · intro s hs
        fin_cases hs <;> simp only [← hxdef, ← hydef, ← hzdef] <;>
          linarith [le_of_lt hx, le_of_lt hy]
      · intro s hs heq
        fin_cases hs <;> simp only [← hxdef, ← hydef, ← hzdef] at heq ⊢ <;>
          simp only [FetchStrategy.enumIndex]
        · exact absurd heq (ne_of_lt hx)
        · exact absurd heq (ne_of_lt hy)
        · omega
  · -- SIMPLE and BROWSER attempted
    set x := (h.successful_strategies FetchStrategy.SIMPLE : ℚ) /
        ((h.successful_strategies FetchStrategy.SIMPLE
          + h.failed_strategies FetchStrategy.SIMPLE : ℕ) : ℚ) with hxdef
    set y := (h.successful_strategies FetchStrategy.BROWSER : ℚ) /
        ((h.successful_strategies FetchStrategy.BROWSER
          + h.failed_strategies FetchStrategy.BROWSER : ℕ) : ℚ) with hydef
    rcases pyFold2 FetchStrategy.SIMPLE FetchStrategy.BROWSER x y with
        ⟨hy, hr⟩ | ⟨hx, hr⟩ <;> rw [hr]
    · refine ⟨by simp, ?_, ?_⟩
      · intro s hs
        fin_cases hs <;> simp only [← hxdef, ← hydef] <;> linarith [not_lt.mp hy]
      · intro s hs heq
        fin_cases hs <;> simp only [FetchStrategy.enumIndex] <;> omega
    · refine ⟨by simp, ?_, ?_⟩
      · intro s hs
        fin_cases hs <;> simp only [← hxdef, ← hydef] <;> linarith [le_of_lt hx]
      · intro s hs heq
        fin_cases hs <;> simp only [← hxdef, ← hydef] at heq ⊢ <;>
          simp only [FetchStrategy.enumIndex]
        · exact absurd heq (ne_of_lt hx)
        · omega
  · -- SIMPLE and ARCHIVE attempted
    set x := (h.successful_strategies FetchStrategy.SIMPLE : ℚ) /
        ((h.successful_strategies FetchStrategy.SIMPLE
          + h.failed_strategies FetchStrategy.SIMPLE : ℕ) : ℚ) with hxdef
    set z := (h.successful_strategies FetchStrategy.ARCHIVE : ℚ) /
        ((h.successful_strategies FetchStrategy.ARCHIVE
          + h.failed_strategies FetchStrategy.ARCHIVE : ℕ) : ℚ) with hzdef
    rcases pyFold2 FetchStrategy.SIMPLE FetchStrategy.ARCHIVE x z with
        ⟨hz, hr⟩ | ⟨hx, hr⟩ <;> rw [hr]
    · refine ⟨by simp, ?_, ?_⟩
      · intro s hs
        fin_cases hs <;> simp only [← hxdef, ← hzdef] <;> linarith [not_lt.mp hz]
      · intro s hs heq
        fin_cases hs <;> simp only [FetchStrategy.enumIndex] <;> omega
    · refine ⟨by simp, ?_, ?_⟩
      · intro s hs
        fin_cases hs <;> simp only [← hxdef, ← hzdef] <;> linarith [le_of_lt hx]
      · intro s hs heq
        fin_cases hs <;> simp only [← hxdef, ← hzdef] at heq ⊢ <;>
          simp only [FetchStrategy.enumIndex]
        · exact absurd heq (ne_of_lt hx)
        · omega
  · -- only SIMPLE attempted
    simp only [List.foldl_nil]
    refine ⟨by simp, ?_, ?_⟩
    · intro s hs
      fin_cases hs; exact le_refl _
    · intro s hs heq
      fin_cases hs; simp [FetchStrategy.enumIndex]
  · -- BROWSER and ARCHIVE attempted
    set y := (h.successful_strategies FetchStrategy.BROWSER : ℚ) /
        ((h.successful_strategies FetchStrategy.BROWSER
          + h.failed_strategies FetchStrategy.BROWSER : ℕ) : ℚ) with hydef
    set z := (h.successful_strategies FetchStrategy.ARCHIVE : ℚ) /
        ((h.successful_strategies FetchStrategy.ARCHIVE
          + h.failed_strategies FetchStrategy.ARCHIVE : ℕ) : ℚ) with hzdef
    rcases pyFold2 FetchStrategy.BROWSER FetchStrategy.ARCHIVE y z with
        ⟨hz, hr⟩ | ⟨hy, hr⟩ <;> rw [hr]
    · refine ⟨by simp, ?_, ?_⟩
      · intro s hs
        fin_cases hs <;> simp only [← hydef, ← hzdef] <;> linarith [not_lt.mp hz]
      · intro s hs heq
        fin_cases hs <;> simp only [FetchStrategy.enumIndex] <;> omega
    · refine ⟨by simp, ?_, ?_⟩
      · intro s hs
        fin_cases hs <;> simp only [← hydef, ← hzdef] <;> linarith [le_of_lt hy]
      · intro s hs heq
        fin_cases hs <;> simp only [← hydef, ← hzdef] at heq ⊢ <;>
          simp only [FetchStrategy.enumIndex]
        · exact absurd heq (ne_of_lt hy)
        · omega
  · -- only BROWSER attempted
    simp only [List.foldl_nil]
    refine ⟨by simp, ?_, ?_⟩
    · intro s hs
      fin_cases hs; exact le_refl _
    · intro s hs heq
      fin_cases hs; simp [FetchStrategy.enumIndex]
  · -- only ARCHIVE attempted
    simp only [List.foldl_nil]
    refine ⟨by simp, ?_, ?_⟩
    · intro s hs
      fin_cases hs; exact le_refl _
    · intro s hs heq
      fin_cases hs; simp [FetchStrategy.enumIndex]
  · -- no strategy attempted: contradicts the nonempty hypothesis
    exact absurd rfl hne

/-- C7: get_optimal_strategy returns Simple-HTTP when the URL pattern has no
recorded history; otherwise, among the strategies with at least one recorded
attempt for the pattern, it returns one maximizing successes over total
attempts, with ties broken by the enumeration order of strategies. -/
theorem C7_get_optimal_strategy (m : StrategyManager) (url : String) :
    (m.pattern_history (m.get_url_pattern url) = none →
      m.get_optimal_strategy url = FetchStrategy.SIMPLE) ∧
    ∀ h, m.pattern_history (m.get_url_pattern url) = some h →
      h.attempted ≠ [] →
      m.get_optimal_strategy url ∈ h.attempted ∧
      (∀ s ∈ h.attempted, h.score s ≤ h.score (m.get_optimal_strategy url)) ∧
      (∀ s ∈ h.attempted, h.score s = h.score (m.get_optimal_strategy url) →
        (m.get_optimal_strategy url).enumIndex ≤ s.enumIndex) := by
  constructor
  · intro hn
    unfold StrategyManager.get_optimal_strategy
    simp [hn]
  · intro h hs hne
    rw [get_optimal_eq_optimalOf m url h hs]
    exact optimalOf_spec h hne

/-- History bucket with Browser at 5 successes, 1 failure and Simple at
0 successes, 5 failures, the example of the spec. -/
def histC7 : FetchHistory :=
  { pattern := "example.com",
    successful_strategies := fun s => if s = FetchStrategy.BROWSER then 5 else 0,
    failed_strategies := fun s =>
      if s = FetchStrategy.SIMPLE then 5
      else if s = FetchStrategy.BROWSER then 1 else 0 }

/-- Manager holding histC7 under the pattern of its only URL. -/
def mC7 : StrategyManager :=
  { get_url_pattern := id,
    pattern_history := fun q => if q = "example.com" then some histC7 else none }

/-- C7 witness: on the 5-1 Browser versus 0-5 Simple history the optimal
strategy is a maximizer among the attempted strategies, and it is Browser;
and a URL with no history gets Simple. -/
theorem C7_get_optimal_strategy_witness :
    mC7.get_optimal_strategy "example.com" ∈ histC7.attempted ∧
    (∀ s ∈ histC7.attempted,
      histC7.score s ≤ histC7.score (mC7.get_optimal_strategy "example.com")) ∧
    mC7.get_optimal_strategy "example.com" = FetchStrategy.BROWSER ∧
    mC7.get_optimal_strategy "nohistory.com" = FetchStrategy.SIMPLE := by
  have hsome : mC7.pattern_history (mC7.get_url_pattern "example.com") = some histC7 := by
    simp [mC7]
  have h := (C7_get_optimal_strategy mC7 "example.com").2 histC7 hsome (by decide)
  have hnone := (C7_get_optimal_strategy mC7 "nohistory.com").1 (by simp [mC7])
  have hatt : histC7.attempted = [FetchStrategy.SIMPLE, FetchStrategy.BROWSER] := by
    decide
  have hS : histC7.score FetchStrategy.SIMPLE = 0 := by
    simp [histC7, FetchHistory.score]
  have hB : histC7.score FetchStrategy.BROWSER = 5 / 6 := by
    simp only [histC7, FetchHistory.score,
      if_neg (show ¬(FetchStrategy.BROWSER = FetchStrategy.SIMPLE) by decide)]
    norm_num
  have hmem := h.1
  rw [hatt] at hmem
  have hbrowser : mC7.get_optimal_strategy "example.com" = FetchStrategy.BROWSER := by
    rcases List.mem_cons.mp hmem with heq | hmem2
    · exfalso
      have hle := h.2.1 FetchStrategy.BROWSER (by rw [hatt]; simp)
      rw [heq, hS, hB] at hle
      norm_num at hle
    · simpa using hmem2
  exact ⟨h.1, h.2.1, hbrowser, hnone⟩

/-- SmartContentFetcher._get_strategy_sequence (fetcher.py lines 151-161):
rotate the enumeration list to start with the chosen strategy. -/
def get_strategy_sequence (start_strategy : FetchStrategy) : List FetchStrategy :=
  let all_strategies := FetchStrategy.members
  let start_idx := all_strategies.findIdx (fun s => s == start_strategy)
  all_strategies.drop start_idx ++ all_strategies.take start_idx

/-- The strategy loop of SmartContentFetcher.fetch_content (fetcher.py lines
110-141).  strategy_fetch models awaiting strategy_impl.fetch: ok is a
returned FetchResult, error a raised exception message.  Carries the manager,
the running last_error and the trace of strategies attempted so far; returns
the successful result if any, the final manager, the attempt trace and the
final last_error. -/
def fetch_content_loop (timestamp url : String)
    (strategy_fetch : FetchStrategy → Except String FetchResult) :
    List FetchStrategy → StrategyManager → Option String → List FetchStrategy →
    Option FetchResult × StrategyManager × List FetchStrategy × Option String
  | [], m, last_error, attempted => (none, m, attempted, last_error)
  | strategy_type :: rest, m, last_error, attempted =>
    match strategy_fetch strategy_type with
    | Except.ok result =>
      let m2 := m.record_attempt timestamp url result strategy_type
      if result.success then (some result, m2, attempted ++ [strategy_type], last_error)
      else
        fetch_content_loop timestamp url strategy_fetch rest m2 result.error
          (attempted ++ [strategy_type])
    | Except.error e =>
      let m2 := m.record_attempt timestamp url
        { content := none, quality := ContentQuality.EMPTY,
          strategy := some strategy_type, error := some e } strategy_type
      fetch_content_loop timestamp url strategy_fetch rest m2 (some e)
        (attempted ++ [strategy_type])

/-- SmartContentFetcher.fetch_content (fetcher.py lines 104-149): pick the
optimal starting strategy, rotate the enumeration, run the fallback loop,
and on exhaustion return an EMPTY result naming the last error. -/
def fetch_content (m : StrategyManager) (timestamp url : String)
    (strategy_fetch : FetchStrategy → Except String FetchResult) :
    FetchResult × StrategyManager × List FetchStrategy :=
  let strategy := m.get_optimal_strategy url
  let strategies_to_try := get_strategy_sequence strategy
  match fetch_content_loop timestamp url strategy_fetch strategies_to_try m none [] with
  | (some result, m2, attempted, _) => (result, m2, attempted)
  | (none, m2, attempted, last_error) =>
    ({ content := none, quality := ContentQuality.EMPTY, strategy := some strategy,
       error := some ("All strategies failed. Last error: " ++
         (match last_error with | some e => e | none => "None")) }, m2, attempted)

/-- Whether a strategy attempt returns a successful result (an exception is
never a success). -/
def strategySucceeds (strategy_fetch : FetchStrategy → Except String FetchResult)
    (s : FetchStrategy) : Bool :=
  match strategy_fetch s with
  | Except.ok r => r.success
  | Except.error _ => false

/-- The prefix of a strategy sequence that a fallback loop attempts: every
strategy up to and including the first success, or the whole sequence. -/
def attemptsUpToFirstSuccess (ok : FetchStrategy → Bool) :
    List FetchStrategy → List FetchStrategy
  | [] => []
  | s :: rest => if ok s then [s] else s :: attemptsUpToFirstSuccess ok rest

lemma fetch_content_loop_attempted (timestamp url : String)
    (strategy_fetch : FetchStrategy → Except String FetchResult) :
    ∀ (l : List FetchStrategy) (m : StrategyManager) (le : Option String)
      (acc : List FetchStrategy),
      (fetch_content_loop timestamp url strategy_fetch l m le acc).2.2.1
        = acc ++ attemptsUpToFirstSuccess (strategySucceeds strategy_fetch) l := by
  intro l
  induction l with
  | nil => intro m le acc; simp [fetch_content_loop, attemptsUpToFirstSuccess]
  | cons s rest ih =>
    intro m le acc
    cases hf : strategy_fetch s with
    | ok result =>
      by_cases hs : result.success = true
      · simp [fetch_content_loop, attemptsUpToFirstSuccess, strategySucceeds, hf, hs]
      · simp [fetch_content_loop, attemptsUpToFirstSuccess, strategySucceeds, hf, hs, ih]
    | error e =>
      simp [fetch_content_loop, attemptsUpToFirstSuccess, strategySucceeds, hf, ih]

/-- C8: the attempt sequence is the full strategy enumeration cyclically
rotated to begin at the chosen starting strategy, each strategy appearing
exactly once; starting at Browser yields Browser, Archive, Simple; and
fetch_content tries strategies in exactly that rotated order, stopping at
the first success. -/
theorem C8_strategy_sequence :
    (∀ start : FetchStrategy,
      get_strategy_sequence start
        = FetchStrategy.members.rotate
            (FetchStrategy.members.findIdx (fun s => s == start))) ∧
    (∀ start t : FetchStrategy, (get_strategy_sequence start).count t = 1) ∧
    get_strategy_sequence FetchStrategy.BROWSER
      = [FetchStrategy.BROWSER, FetchStrategy.ARCHIVE, FetchStrategy.SIMPLE] ∧
    ∀ (m : StrategyManager) (timestamp url : String)
      (strategy_fetch : FetchStrategy → Except String FetchResult),
      (fetch_content m timestamp url strategy_fetch).2.2
        = attemptsUpToFirstSuccess (strategySucceeds strategy_fetch)
            (get_strategy_sequence (m.get_optimal_strategy url)) := by
  refine ⟨?_, ?_, ?_, ?_⟩
  · intro start; cases start <;> decide
  · intro start t; cases start <;> cases t <;> decide
  · decide
  · intro m timestamp url strategy_fetch
    have h := fetch_content_loop_attempted timestamp url strategy_fetch
      (get_strategy_sequence (m.get_optimal_strategy url)) m none []
    unfold fetch_content
    rcases hres : fetch_content_loop timestamp url strategy_fetch
        (get_strategy_sequence (m.get_optimal_strategy url)) m none [] with
      ⟨ro, m2, att, le⟩
    rw [hres] at h
    simp only [List.nil_append] at h
    cases ro <;> simp [hres, h]

/-- FetcherConfig from sources/fetching/config.py (the fields the embedded
logic reads; header dicts are carried as data). -/
structure FetcherConfig where
  max_retries : Nat := 3
  retry_delay : ℚ := 1
  strategy_timeout : ℚ := 30
  browser_pool_size : Nat := 5
  browser_headers : List (String × String) := []
  archive_sources : List String := ["wayback", "archive.today", "google"]
  max_connections : Nat := 100
  max_keepalive_connections : Nat := 20
  keepalive_expiry : ℚ := 30
  validation : ContentValidation

/-- ContentFetchStrategy.create_result (strategies/base.py lines 29-43)
specialized to the Simple strategy type. -/
def create_result_simple (content : Option String) (quality : ContentQuality)
    (error : Option String) (metadata : List (String × MetaValue)) : FetchResult :=
  { content := content, quality := quality, strategy := some FetchStrategy.SIMPLE,
    error := error, metadata := metadata }

/-- ContentFetchStrategy.validate_content (strategies/base.py lines 45-52). -/
def validate_content (content : Option String) (config : FetcherConfig) :
    ContentQuality :=
  match content with
  | none => ContentQuality.EMPTY
  | some c =>
    if c.isEmpty then ContentQuality.EMPTY else config.validation.validate c

/-- Outcome of one HTTP GET in the Simple strategy: a body whose
raise_for_status passed, a status error raised by raise_for_status, a
transient read or protocol error, or any other exception. -/
inductive HttpOutcome
  | ok (text : String) (status : Nat) (content_type : Option String)
  | statusError (status : Nat) (reason : String)
  | readError (msg : String)
  | protocolError (msg : String)
  | otherError (msg : String)

/-- The retry loop of SimpleHttpStrategy.fetch (strategies/simple.py lines
43-108).  responses gives the outcome of the request issued on each attempt
index; the result carries the number of requests issued and the list of
backoff sleeps performed.  A status error propagates out of the loop with no
retry; only read and protocol errors retry, re-raising on the third attempt;
fuel only bounds the recursion and is never exhausted from fetch since the
attempt counter reaches 2 first. -/
def simple_fetch_go (config : FetcherConfig) (responses : Nat → HttpOutcome)
    (attempt : Nat) (sleeps : List ℚ) : Nat → FetchResult × Nat × List ℚ
  | 0 => (create_result_simple none ContentQuality.EMPTY
      (some "retry loop exhausted") [], attempt, sleeps)
  | fuel + 1 =>
    match responses attempt with
    | HttpOutcome.ok text status content_type =>
      if text.isEmpty then
        (create_result_simple none ContentQuality.EMPTY (some "Empty response") [],
         attempt + 1, sleeps)
      else
        (create_result_simple (some text) (validate_content (some text) config) none
          [("status_code", MetaValue.nat status),
           ("content_type", MetaValue.str content_type),
           ("content_length", MetaValue.nat text.length),
           ("attempt", MetaValue.nat (attempt + 1))],
         attempt + 1, sleeps)
    | HttpOutcome.statusError status reason =>
      (create_result_simple none ContentQuality.EMPTY
        (some ("HTTP " ++ toString status ++ ": " ++ reason)) [],
       attempt + 1, sleeps)
    | HttpOutcome.readError msg =>
      if attempt == 2 then
        (create_result_simple none ContentQuality.EMPTY
          (some ("Network read error: " ++ msg)) [], attempt + 1, sleeps)
      else
        simple_fetch_go config responses (attempt + 1)
          (sleeps ++ [1 * ((attempt : ℚ) + 1)]) fuel
    | HttpOutcome.protocolError msg =>
      if attempt == 2 then
        (create_result_simple none ContentQuality.EMPTY
          (some ("Protocol error: " ++ msg)) [], attempt + 1, sleeps)
      else
        simple_fetch_go config responses (attempt + 1)
          (sleeps ++ [1 * ((attempt : ℚ) + 1)]) fuel
    | HttpOutcome.otherError msg =>
      (create_result_simple none ContentQuality.EMPTY (some msg) [],
       attempt + 1, sleeps)

/-- SimpleHttpStrategy.fetch: run the three-attempt loop from attempt 0. -/
def simple_fetch (config : FetcherConfig) (responses : Nat → HttpOutcome) :
    FetchResult × Nat × List ℚ :=
  simple_fetch_go config responses 0 [] 3

/-- A concrete config with empty pattern lists for instantiations. -/
def cfgC5 : FetcherConfig :=
  { validation := { required_patterns := [], blocked_patterns := [] } }

/-- Responses that always carry an HTTP status error. -/
def respC5status : Nat → HttpOutcome :=
  fun _ => HttpOutcome.statusError 404 "Not Found"

/-- Responses with a transient read error first, then a good body. -/
def respC5read : Nat → HttpOutcome :=
  fun n => if n = 0 then HttpOutcome.readError "connection reset"
    else HttpOutcome.ok "ok body with enough text to pass the length gate nicely and some more padding text to go past the minimum length of one hundred characters" 200 (some "text/html")

/-- C5 counterexample: on an HTTP status error the Simple strategy fails with
one request, no sleep and the status in the error string, but the returned
result has EMPTY metadata, so the failing status is not captured in the
metadata as the claim states. -/
theorem C5_status_error_counterexample :
    (simple_fetch cfgC5 respC5status).1.metadata = [] ∧
    (simple_fetch cfgC5 respC5status).1.error = some "HTTP 404: Not Found" ∧
    (simple_fetch cfgC5 respC5status).1.success = false ∧
    (simple_fetch cfgC5 respC5status).2.1 = 1 ∧
    (simple_fetch cfgC5 respC5status).2.2 = [] := by
  refine ⟨rfl, ?_, rfl, rfl, rfl⟩
  decide

/-- C5 amended: on an HTTP status error to the first request, fetch fails
immediately with exactly one request and no backoff sleep (retries apply only
to read and protocol level transient errors, as a first-attempt read error
followed by retry shows), and the non-success result captures the failing
status in its error string while its metadata is empty. -/
theorem C5_status_error_amended (config : FetcherConfig)
    (responses : Nat → HttpOutcome) (status : Nat) (reason : String) :
    (responses 0 = HttpOutcome.statusError status reason →
      simple_fetch config responses =
        (create_result_simple none ContentQuality.EMPTY
          (some ("HTTP " ++ toString status ++ ": " ++ reason)) [], 1, [])) ∧
    (∀ msg, responses 0 = HttpOutcome.readError msg →
      2 ≤ (simple_fetch config responses).2.1 ∧
      (simple_fetch config responses).2.2.take 1 = [(1 : ℚ)]) := by
  constructor
  · intro h0
    simp [simple_fetch, simple_fetch_go, h0]
  · intro msg h0
    rcases h1 : responses 1 with ⟨t, st, ct⟩ | ⟨st, r⟩ | m1 | m1 | m1 <;>
      rcases h2 : responses 2 with ⟨t2, st2, ct2⟩ | ⟨st2, r2⟩ | m2 | m2 | m2 <;>
      simp [simple_fetch, simple_fetch_go, h0, h1, h2] <;>
      try (split <;> simp)

/-- C5 witness: concrete runs of the amended theorem, a 404 on the first
request and a transient read error followed by a retry. -/
theorem C5_status_error_amended_witness :
    simple_fetch cfgC5 respC5status
      = (create_result_simple none ContentQuality.EMPTY
          (some ("HTTP " ++ toString 404 ++ ": " ++ "Not Found")) [], 1, []) ∧
    2 ≤ (simple_fetch cfgC5 respC5read).2.1 ∧
    (simple_fetch cfgC5 respC5read).2.2.take 1 = [(1 : ℚ)] := by
  refine ⟨?_, ?_, ?_⟩
  · exact (C5_status_error_amended cfgC5 respC5status 404 "Not Found").1 rfl
  · exact ((C5_status_error_amended cfgC5 respC5read 404 "Not Found").2
      "connection reset" rfl).1
  · exact ((C5_status_error_amended cfgC5 respC5read 404 "Not Found").2
      "connection reset" rfl).2

/-- Python int() on a rational: truncation toward zero. -/
def truncQ (q : ℚ) : ℤ :=
  if 0 ≤ q then ⌊q⌋ else ⌈q⌉

/-- One entry of Source.error_log as written by _record_source_failure. -/
structure ErrorLogEntry where
  timestamp : Int
  error : String
  error_count : ℚ
  deriving DecidableEq, Repr

/-- The source health record persisted by the external store (core/models.py
Source: error_count is an IntegerField, timestamps are nullable).  Times are
integer minutes. -/
structure Source where
  error_count : Int
  last_checked : Option Int := none
  last_success : Option Int := none
  active : Bool := true
  error_log : List ErrorLogEntry := []
  deriving DecidableEq, Repr

/-- FeedProcessor._record_source_failure (services.py lines 235-268): add the
increment as a float, append to the error log keeping the last 10 entries,
set last_checked, then persist error_count as int(error_count + 0.5). -/
def record_source_failure (now : Int) (source : Source) (error_message : String)
    (increment : ℚ) : Source :=
  let ec : ℚ := (source.error_count : ℚ) + increment
  let entry : ErrorLogEntry :=
    { timestamp := now, error := error_message, error_count := ec }
  let log := source.error_log ++ [entry]
  { source with
    error_count := truncQ (ec + 1 / 2),
    last_checked := some now,
    error_log := log.drop (log.length - 10) }

/-- FeedProcessor._record_source_success (services.py lines 270-279). -/
def record_source_success (now : Int) (source : Source) : Source :=
  { source with
    error_count := 0,
    last_checked := some now,
    last_success := some now }

/-- FeedEntry from services.py (already extracted from the parsed feed). -/
structure FeedEntry where
  title : String
  url : String
  content : Option String := none
  guid : Option String := none
  author : String := ""
  published_at : Option Int := none
  deriving DecidableEq, Repr

/-- The Content record created by _process_entry. -/
structure Content where
  title : String
  url : String
  raw_content : Option String
  fetch_quality : ContentQuality
  fetch_strategy : Option FetchStrategy
  fetch_metadata : List (String × MetaValue)
  authors : List String
  publish_date : Int
  deriving DecidableEq, Repr

/-- FeedProcessor._process_entry (services.py lines 281-331).  store_has
models Content.objects.filter(url=...).aexists(); fetch models
self.fetcher.fetch_content.  Returns the created record (None for a
duplicate URL or a failed fetch) together with the list of fetch calls
issued (empty for a duplicate). -/
def process_entry (now : Int) (store_has : String → Bool)
    (fetch : String → FetchResult) (entry : FeedEntry) :
    Option Content × List String :=
  if store_has entry.url then (none, [])
  else
    let fetch_result := fetch entry.url
    if !fetch_result.success
        || fetch_result.quality = ContentQuality.EMPTY
        || fetch_result.quality = ContentQuality.BLOCKED then
      (none, [entry.url])
    else
      (some { title := entry.title, url := entry.url,
              raw_content := fetch_result.content,
              fetch_quality := fetch_result.quality,
              fetch_strategy := fetch_result.strategy,
              fetch_metadata := fetch_result.metadata,
              authors := if entry.author = "" then [] else [entry.author],
              publish_date := entry.published_at.getD now },
       [entry.url])

/-- Counters of the per-entry loop of process_source, plus the trace of
fetch calls issued so far. -/
structure EntryLoopState where
  total_attempts : Nat := 0
  failed_attempts : Nat := 0
  consecutive_failures : Nat := 0
  new_content : List Content := []
  fetch_calls : List String := []
  deriving DecidableEq, Repr

/-- The per-entry loop of process_source (services.py lines 166-198): attempt
entries in feed order; a None from _process_entry counts as a failed attempt
and advances the consecutive-failure counter; break once consecutive failures
reach 3 (MAX_CONSECUTIVE_FAILURES) or, from 5 attempts on
(MIN_ATTEMPTS_BEFORE_RATE_CHECK), once the failure rate exceeds 0.5
(failed/total > 0.5 is the exact 2*failed > total on integers).  Returns the
final state and the entries left unattempted. -/
def process_entries (now : Int) (store_has : String → Bool)
    (fetch : String → FetchResult) :
    List FeedEntry → EntryLoopState → EntryLoopState × List FeedEntry
  | [], st => (st, [])
  | entry :: rest, st =>
    let total := st.total_attempts + 1
    let pr := process_entry now store_has fetch entry
    let st2 : EntryLoopState :=
      match pr.1 with
      | some c =>
        { st with
          total_attempts := total, consecutive_failures := 0,
          new_content := st.new_content ++ [c],
          fetch_calls := st.fetch_calls ++ pr.2 }
      | none =>
        { st with
          total_attempts := total,
          failed_attempts := st.failed_attempts + 1,
          consecutive_failures := st.consecutive_failures + 1,
          fetch_calls := st.fetch_calls ++ pr.2 }
    if st2.consecutive_failures ≥ 3 then (st2, rest)
    else if total ≥ 5 ∧ 2 * st2.failed_attempts > total then (st2, rest)
    else process_entries now store_has fetch rest st2

/-- ProcessingResult from services.py lines 75-83. -/
structure ProcessingResult where
  new_content : List Content := []
  error : Option String := none
  processed_count : Nat := 0
  fetch_failures : Nat := 0
  all_attempts_failed : Bool := false
  deriving DecidableEq, Repr

/-- Observable side effects of one process_source call: whether the feed was
retrieved, which content fetches were issued, and how many entries the loop
attempted. -/
structure ProcessTrace where
  feed_fetched : Bool
  fetch_calls : List String
  attempted_entries : Nat
  deriving DecidableEq, Repr

/-- The backoff test of process_source (services.py lines 132-137):
error_count at or above FAILURE_THRESHOLD (3) and a present last_checked
within BACKOFF_MINUTES (60) of now. -/
def in_backoff (now : Int) (source : Source) : Bool :=
  decide (source.error_count ≥ 3) &&
    (match source.last_checked with
     | some t => decide (now - t < 60)
     | none => false)

/-- FeedProcessor.process_source (services.py lines 125-233).  feed models
the outcome of _fetch_feed (none for a fetch or parse error or an entryless
feed document); FAILURE_THRESHOLD is 3 and BACKOFF_MINUTES is 60; no modelled
operation raises, so the broad except branch is not taken. -/
def process_source (now : Int) (store_has : String → Bool)
    (fetch : String → FetchResult) (feed : Option (List FeedEntry))
    (source : Source) : ProcessingResult × Source × ProcessTrace :=
  if in_backoff now source then
    ({ error := some ("In backoff period due to " ++ toString source.error_count
        ++ " failures") }, source,
     { feed_fetched := false, fetch_calls := [], attempted_entries := 0 })
  else
    match feed with
    | none =>
      ({ error := some "Failed to fetch feed" },
       record_source_failure now source "Feed fetch failed" 1,
       { feed_fetched := true, fetch_calls := [], attempted_entries := 0 })
    | some entries =>
      if entries.isEmpty then
        ({ processed_count := entries.length },
         record_source_success now source,
         { feed_fetched := true, fetch_calls := [], attempted_entries := 0 })
      else
        let st := (process_entries now store_has fetch entries {}).1
        let result : ProcessingResult :=
          { new_content := st.new_content,
            processed_count := entries.length,
            fetch_failures := st.failed_attempts,
            all_attempts_failed :=
              decide (st.failed_attempts = st.total_attempts ∧ 0 < st.total_attempts) }
        let source2 :=
          if st.failed_attempts = st.total_attempts ∧ 0 < st.total_attempts then
            record_source_failure now source
              ("All " ++ toString st.total_attempts ++ " fetch attempts failed") 1
          else if 2 * st.failed_attempts > st.total_attempts then
            record_source_failure now source
              ("High failure rate: " ++ toString st.failed_attempts ++ "/"
                ++ toString st.total_attempts ++ " attempts failed") (1 / 2)
          else record_source_success now source
        (result, source2,
         { feed_fetched := true, fetch_calls := st.fetch_calls,
           attempted_entries := st.total_attempts })

/-- C3: a source at or above the failure threshold checked within the last
60 minutes is skipped: process_source returns only the explanatory error,
with empty content and zero counts, fetches neither the feed nor any entry
(so no attempt can be recorded in any strategy history), and leaves the
source record unchanged. -/
theorem C3_backoff_skip (now : Int) (store_has : String → Bool)
    (fetch : String → FetchResult) (feed : Option (List FeedEntry))
    (source : Source) (t : Int)
    (hec : 3 ≤ source.error_count) (hlc : source.last_checked = some t)
    (hwin : now - t < 60) :
    process_source now store_has fetch feed source
      = ({ new_content := [], error := some ("In backoff period due to "
            ++ toString source.error_count ++ " failures"),
           processed_count := 0, fetch_failures := 0, all_attempts_failed := false },
         source,
         { feed_fetched := false, fetch_calls := [], attempted_entries := 0 }) := by
  have hb : in_backoff now source = true := by
    simp [in_backoff, hlc, hec, hwin]
  simp [process_source, hb]

/-- A source sitting in the backoff window. -/
def srcBackoff : Source := { error_count := 3, last_checked := some 0 }

/-- C3 witness: error_count 3 and last_checked 10 minutes ago is skipped with
the explanatory error, no feed retrieval, no fetch call and an unchanged
source. -/
theorem C3_backoff_skip_witness :
    process_source 10 (fun _ => false)
        (fun _ => { content := none, quality := ContentQuality.EMPTY })
        (some [{ title := "t", url := "u" }]) srcBackoff
      = ({ new_content := [], error := some "In backoff period due to 3 failures",
           processed_count := 0, fetch_failures := 0, all_attempts_failed := false },
         srcBackoff,
         { feed_fetched := false, fetch_calls := [], attempted_entries := 0 }) := by
  have h := C3_backoff_skip 10 (fun _ => false)
    (fun _ => { content := none, quality := ContentQuality.EMPTY })
    (some [{ title := "t", url := "u" }]) srcBackoff 0 (by decide) rfl (by decide)
  exact h.trans (by decide)

/-- C4: on a full failure the persisted error_count is the old count plus 1;
on a half-increment failure it is the old count plus one half, rounded to the
nearest integer when persisted (so also plus 1); a success resets it to 0 and
sets last_success; every recording path sets last_checked; and starting from
a non-negative count the persisted count stays a non-negative integer. -/
theorem C4_error_count_recording (now : Int) (source : Source) (msg : String)
    (hnn : 0 ≤ source.error_count) :
    (record_source_failure now source msg 1).error_count = source.error_count + 1 ∧
    (record_source_failure now source msg (1 / 2)).error_count
      = round ((source.error_count : ℚ) + 1 / 2) ∧
    (record_source_failure now source msg (1 / 2)).error_count
      = source.error_count + 1 ∧
    (record_source_success now source).error_count = 0 ∧
    (record_source_success now source).last_success = some now ∧
    (record_source_failure now source msg 1).last_checked = some now ∧
    (record_source_failure now source msg (1 / 2)).last_checked = some now ∧
    (record_source_success now source).last_checked = some now ∧
    0 ≤ (record_source_failure now source msg 1).error_count ∧
    0 ≤ (record_source_failure now source msg (1 / 2)).error_count := by
  have hq : (0 : ℚ) ≤ (source.error_count : ℚ) := by exact_mod_cast hnn
  have h32 : (⌊(3 / 2 : ℚ)⌋ : ℤ) = 1 := by
    rw [Int.floor_eq_iff]; norm_num
  have hfull : (record_source_failure now source msg 1).error_count
      = source.error_count + 1 := by
    show truncQ ((source.error_count : ℚ) + 1 + 1 / 2) = source.error_count + 1
    unfold truncQ
    rw [if_pos (by linarith)]
    rw [show (source.error_count : ℚ) + 1 + 1 / 2
        = ((source.error_count : ℤ) : ℚ) + 3 / 2 by ring]
    rw [Int.floor_int_add, h32]
  have hhalf : (record_source_failure now source msg (1 / 2)).error_count
      = source.error_count + 1 := by
    show truncQ ((source.error_count : ℚ) + 1 / 2 + 1 / 2) = source.error_count + 1
    unfold truncQ
    rw [if_pos (by linarith)]
    rw [show (source.error_count : ℚ) + 1 / 2 + 1 / 2
        = ((source.error_count + 1 : ℤ) : ℚ) by push_cast; ring]
    rw [Int.floor_intCast]
  have hround : round ((source.error_count : ℚ) + 1 / 2) = source.error_count + 1 := by
    rw [round_eq]
    rw [show (source.error_count : ℚ) + 1 / 2 + 1 / 2
        = ((source.error_count + 1 : ℤ) : ℚ) by push_cast; ring]
    rw [Int.floor_intCast]
  refine ⟨hfull, ?_, hhalf, rfl, rfl, rfl, rfl, rfl, ?_, ?_⟩
  · rw [hhalf, hround]
  · rw [hfull]; omega
  · rw [hhalf]; omega

/-- A source with two accumulated errors. -/
def srcTwo : Source := { error_count := 2 }

/-- C4 witness: from error_count 2, a full failure persists 3, a half-increment
failure also persists 3 (2.5 rounded), success resets to 0 and stamps the
clock. -/
theorem C4_error_count_recording_witness :
    (record_source_failure 7 srcTwo "e" 1).error_count = 3 ∧
    (record_source_failure 7 srcTwo "e" (1 / 2)).error_count = 3 ∧
    (record_source_success 7 srcTwo).error_count = 0 ∧
    (record_source_success 7 srcTwo).last_success = some 7 ∧
    (record_source_failure 7 srcTwo "e" 1).last_checked = some 7 := by
  obtain ⟨a, b, c, d, e, f, g, h8, i, j⟩ :=
    C4_error_count_recording 7 srcTwo "e" (by decide)
  refine ⟨?_, ?_, d, e, g⟩
  · rw [a]; decide
  · rw [c]; decide

/-- C10: whenever the feed was fetched and parsed (feed is present) and the
source is not in backoff, processed_count is the number of parsed entries,
fixed before the per-entry loop runs, independent of how many entries the
loop actually attempts. -/
theorem C10_processed_count (now : Int) (store_has : String → Bool)
    (fetch : String → FetchResult) (entries : List FeedEntry) (source : Source)
    (hnb : in_backoff now source = false) :
    (process_source now store_has fetch (some entries) source).1.processed_count
      = entries.length := by
  simp only [process_source, hnb, Bool.false_eq_true, if_false]
  by_cases he : entries.isEmpty <;> simp [he]

lemma process_entries_remaining (now : Int) (store_has : String → Bool)
    (fetch : String → FetchResult) :
    ∀ (entries : List FeedEntry) (st : EntryLoopState),
      ∃ n, (process_entries now store_has fetch entries st).2 = entries.drop n := by
  intro entries
  induction entries with
  | nil => intro st; exact ⟨0, rfl⟩
  | cons e rest ih =>
    intro st
    simp only [process_entries]
    cases hpr : (process_entry now store_has fetch e).1 <;> simp only [hpr]
    · split
      · exact ⟨1, rfl⟩
      · split
        · exact ⟨1, rfl⟩
        · obtain ⟨n, hn⟩ := ih _
          exact ⟨n + 1, by simpa using hn⟩
    · split
      · exact ⟨1, rfl⟩
      · split
        · exact ⟨1, rfl⟩
        · obtain ⟨n, hn⟩ := ih _
          exact ⟨n + 1, by simpa using hn⟩

/-- C9: entries are attempted strictly in feed order (what the loop leaves
unattempted is always a tail of the feed), and three consecutive failing
entries at the head stop the loop with exactly those three attempted and
every later entry left unattempted, whatever the rest of the feed is. -/
theorem C9_consecutive_failure_abort (now : Int) (store_has : String → Bool)
    (fetch : String → FetchResult) (e1 e2 e3 : FeedEntry)
    (rest : List FeedEntry)
    (h1 : (process_entry now store_has fetch e1).1 = none)
    (h2 : (process_entry now store_has fetch e2).1 = none)
    (h3 : (process_entry now store_has fetch e3).1 = none) :
    process_entries now store_has fetch (e1 :: e2 :: e3 :: rest) {}
      = ({ total_attempts := 3, failed_attempts := 3, consecutive_failures := 3,
           new_content := [],
           fetch_calls := (process_entry now store_has fetch e1).2
             ++ ((process_entry now store_has fetch e2).2
               ++ (process_entry now store_has fetch e3).2) }, rest) ∧
    ∀ (entries : List FeedEntry) (st : EntryLoopState),
      ∃ n, (process_entries now store_has fetch entries st).2 = entries.drop n := by
  refine ⟨?_, process_entries_remaining now store_has fetch⟩
  simp [process_entries, h1, h2, h3]

/-- A minimal feed entry for a given URL. -/
def entU (u : String) : FeedEntry := { title := "t", url := u }

/-- A six-entry feed. -/
def feedC9 : List FeedEntry :=
  [entU "u1", entU "u2", entU "u3", entU "u4", entU "u5", entU "u6"]

/-- A record store containing nothing. -/
def storeEmpty : String → Bool := fun _ => false

/-- A record store that already contains every URL. -/
def storeAll : String → Bool := fun _ => true

/-- A fetcher whose every fetch fails. -/
def fetchFail : String → FetchResult :=
  fun _ => { content := none, quality := ContentQuality.EMPTY, error := some "boom" }

/-- A fetcher whose every fetch succeeds with FULL quality. -/
def fetchGood : String → FetchResult :=
  fun _ => { content := some "body", quality := ContentQuality.FULL }

/-- A healthy source. -/
def srcOK : Source := { error_count := 0 }

/-- C9 witness: on the six-entry feed with every fetch failing, the loop
stops after the first three entries; entries 4 to 6 are returned
unattempted. -/
theorem C9_consecutive_failure_abort_witness :
    process_entries 0 storeEmpty fetchFail feedC9 {}
      = ({ total_attempts := 3, failed_attempts := 3, consecutive_failures := 3,
           new_content := [], fetch_calls := ["u1", "u2", "u3"] },
         [entU "u4", entU "u5", entU "u6"]) := by
  have h := (C9_consecutive_failure_abort 0 storeEmpty fetchFail
    (entU "u1") (entU "u2") (entU "u3") [entU "u4", entU "u5", entU "u6"]
    rfl rfl rfl).1
  exact h.trans (by decide)

/-- C10 witness: the six-entry feed aborted after three attempts still
reports processed_count 6. -/
theorem C10_processed_count_witness :
    (process_source 0 storeEmpty fetchFail (some feedC9) srcOK).1.processed_count = 6 ∧
    (process_source 0 storeEmpty fetchFail (some feedC9) srcOK).2.2.attempted_entries
      = 3 := by
  constructor
  · exact (C10_processed_count 0 storeEmpty fetchFail feedC9 srcOK (by decide)).trans
      (by decide)
  · decide

/-- One process_source run on a feed whose single entry URL already exists in
the record store. -/
def runC1 : ProcessingResult × Source × ProcessTrace :=
  process_source 0 storeAll fetchGood (some [entU "dup"]) srcOK

/-- C1: the URL-dedup skip issues no content fetch (and the fetch would have
succeeded had it been made), yet process_source counts the skipped duplicate
as a failed attempt: fetch_failures is 1, all_attempts_failed is set, and a
full source failure claiming one failed fetch attempt is recorded. -/
theorem C1_dedup_counted_as_failure :
    runC1.2.2.fetch_calls = [] ∧
    (fetchGood "dup").success = true ∧
    runC1.1.fetch_failures = 1 ∧
    runC1.1.all_attempts_failed = true ∧
    runC1.1.new_content = [] ∧
    runC1.2.1.error_count = 1 ∧
    (runC1.2.1.error_log.map fun l => l.error) = ["All 1 fetch attempts failed"] := by
  refine ⟨rfl, rfl, rfl, rfl, rfl, ?_, rfl⟩
  have h : truncQ (((0 : ℤ) : ℚ) + 1 + 1 / 2) = 0 + 1 := by
    unfold truncQ
    rw [if_pos (by norm_num)]
    rw [show ((0 : ℤ) : ℚ) + 1 + 1 / 2 = (3 / 2 : ℚ) by norm_num]
    rw [Int.floor_eq_iff]; norm_num
  exact h.trans (by norm_num)
